import Mathlib

set_option autoImplicit false

/-!
Verification of the voyage-simulator financial and sailing rules against the
JavaScript source. Each definition is a shallow embedding of the function it
names in its doc comment; monetary values are integers (gold pieces), and the
floor/ceil arithmetic of the source is rendered with exact integer division.
-/

/-! ### Ledger model -/

/-- One ledger entry as pushed by `VoyageSimulator.recordLedgerEntry`
(src/scripts/voyage/simulation.js, lines 135-141): `income` and `expense`
are stored as `null` (here `none`) when the passed amount is not positive. -/
structure LedgerEntry where
  date : String
  description : String
  income : Option Int
  expense : Option Int
  balance : Int
deriving Repr, DecidableEq

/-- Reading the recorded income of an entry, with the `null` stored for a
non-positive amount read as 0. -/
def entryIncome (e : LedgerEntry) : Int := e.income.getD 0

/-- Reading the recorded expense of an entry, with `null` read as 0. -/
def entryExpense (e : LedgerEntry) : Int := e.expense.getD 0

/-- Balance of the final ledger entry, 0 for an empty ledger: this is
`state.ledger[state.ledger.length - 1]?.balance ?? 0` as computed at
src/scripts/voyage/simulation.js lines 130-131. -/
def lastBalance : List LedgerEntry → Int
  | [] => 0
  | [e] => e.balance
  | _ :: rest => lastBalance rest

/-- Shallow embedding of `VoyageSimulator.recordLedgerEntry`
(src/scripts/voyage/simulation.js, lines 125-146): with `setBalance` the new
balance is the passed income, otherwise it is the previous balance plus income
minus expense; the entry is appended to the ledger. -/
def recordLedgerEntry (ledger : List LedgerEntry) (date description : String)
    (income expense : Int) (setBalance : Bool) : List LedgerEntry :=
  let newBalance := if setBalance then income else lastBalance ledger + income - expense
  ledger ++ [{ date := date, description := description,
               income := if income > 0 then some income else none,
               expense := if expense > 0 then some expense else none,
               balance := newBalance }]

/-- Chain condition on all entries after a given previous balance: each entry
must satisfy balance = previous balance + income - expense. -/
def chainFromB (prev : Int) : List LedgerEntry → Bool
  | [] => true
  | e :: rest => (e.balance == prev + entryIncome e - entryExpense e) && chainFromB e.balance rest

/-- The ledger invariant of the claim: every entry other than the first (the
designated opening entry) satisfies balance = previous.balance + income - expense. -/
def ledgerChained : List LedgerEntry → Bool
  | [] => true
  | e :: rest => chainFromB e.balance rest

/-- Balance of the last entry of a list, or the given previous balance when the
list is empty; auxiliary for relating `chainFromB` to `lastBalance`. -/
def lastBalanceFrom (prev : Int) : List LedgerEntry → Int
  | [] => prev
  | e :: rest => lastBalanceFrom e.balance rest

/-- One call to `recordLedgerEntry` as issued by the voyage engine: the
engine only ever appends entries through this helper. -/
structure LedgerOp where
  date : String
  description : String
  income : Int
  expense : Int
  setBalance : Bool
deriving Repr, DecidableEq

/-- Folding a single ledger operation into the ledger. -/
def recStep (ledger : List LedgerEntry) (op : LedgerOp) : List LedgerEntry :=
  recordLedgerEntry ledger op.date op.description op.income op.expense op.setBalance

/-- Running a sequence of ledger operations from the empty ledger. -/
def applyLedgerOps (ops : List LedgerOp) : List LedgerEntry :=
  ops.foldl recStep []

/-- The opening ledger operation issued by `startVoyage`
(src/scripts/voyage/simulation.js, line 106): income is the starting treasury,
expense 0, and the set-balance flag is true. -/
def openingOp (treasury : Int) : LedgerOp :=
  { date := "start", description := "Beginning of trade simulation",
    income := treasury, expense := 0, setBalance := true }

/-! ### Voyage money-flow state machine (for the treasury/ledger invariant) -/

/-- The money-relevant fragment of the voyage state
(src/scripts/voyage/simulation.js, `initializeVoyageState`): the treasury, the
operational costs accumulated at sea since the last ledger flush, and the ledger. -/
structure VState where
  treasury : Int
  legAccumulatedCost : Int
  ledger : List LedgerEntry
deriving Repr

/-- The treasury-touching and ledger-touching operations of the engine, one
constructor per code site. All amounts are the non-negative gold values the
source computes at that site. -/
inductive VoyageStep where
  /-- Daily operational cost deduction, at sea (simulation.js 487-491) or during
  an in-port day (766-769): the treasury is debited and the amount accumulates
  in `legAccumulatedCost`; no ledger entry is written. -/
  | dayCost (c : Nat)
  /-- Flushing the accumulated sea expenses as one ledger entry on port arrival
  (simulation.js 728-731) or at finalization (1229-1232). -/
  | flushLegCosts
  /-- Port fees paid on arrival, with a ledger entry (simulation.js 747-751). -/
  | portFees (f : Nat)
  /-- Ship repairs paid at a port, with a ledger entry (simulation.js 1145-1152). -/
  | shipRepair (c : Nat)
  /-- Passenger revenue; credited and ledgered only when positive
  (simulation.js 810-814). `PassengerBooking.handlePassengerBooking`
  (src/unnamed/part_006, lines 374-459) returns
  newTreasury = currentTreasury + revenueEarned. -/
  | passengerRevenue (r : Nat)
  /-- Settlement of a cargo sale (simulation.js 1018-1031): the treasury moves
  by the owner proceeds minus the customs tax, and each of the two amounts is
  ledgered when positive. -/
  | cargoSaleSettle (owner tax : Nat)
  /-- A cargo purchase: treasury debited and ledgered (simulation.js 973-977). -/
  | cargoPurchase (c : Nat)
  /-- The consignment upfront payment: credited and ledgered (simulation.js 1053-1056). -/
  | consignmentUpfront (u : Nat)
deriving Repr, DecidableEq

/-- One engine operation applied to the money state, mirroring the cited code sites. -/
def applyVoyageStep (s : VState) : VoyageStep → VState
  | .dayCost c =>
      { s with treasury := s.treasury - c, legAccumulatedCost := s.legAccumulatedCost + c }
  | .flushLegCosts =>
      if s.legAccumulatedCost > 0 then
        { s with ledger := recordLedgerEntry s.ledger "date" "Voyage expenses" 0 s.legAccumulatedCost false,
                 legAccumulatedCost := 0 }
      else s
  | .portFees f =>
      { s with treasury := s.treasury - f,
               ledger := recordLedgerEntry s.ledger "date" "Port fees" 0 f false }
  | .shipRepair c =>
      { s with treasury := s.treasury - c,
               ledger := recordLedgerEntry s.ledger "date" "Ship repairs" 0 c false }
  | .passengerRevenue r =>
      if r > 0 then
        { s with treasury := s.treasury + r,
                 ledger := recordLedgerEntry s.ledger "date" "Passenger revenue" r 0 false }
      else s
  | .cargoSaleSettle owner tax =>
      let s1 : VState := { s with treasury := s.treasury + owner - tax }
      let s2 : VState :=
        if owner > 0 then
          { s1 with ledger := recordLedgerEntry s1.ledger "date" "Sold cargo" owner 0 false }
        else s1
      if tax > 0 then
        { s2 with ledger := recordLedgerEntry s2.ledger "date" "Customs tax" 0 tax false }
      else s2
  | .cargoPurchase c =>
      { s with treasury := s.treasury - c,
               ledger := recordLedgerEntry s.ledger "date" "Purchased cargo" 0 c false }
  | .consignmentUpfront u =>
      { s with treasury := s.treasury + u,
               ledger := recordLedgerEntry s.ledger "date" "Consignment upfront payment" u 0 false }

/-- State right after `startVoyage` wrote the opening ledger entry
(simulation.js 104-107): treasury is the starting gold and the opening entry
sets the balance to it. -/
def initVoyage (startingGold : Int) : VState :=
  { treasury := startingGold, legAccumulatedCost := 0,
    ledger := recordLedgerEntry [] "start" "Beginning of trade simulation" startingGold 0 true }

/-- Running a sequence of engine money operations from the post-opening state. -/
def runVoyageSteps (startingGold : Int) (steps : List VoyageStep) : VState :=
  steps.foldl applyVoyageStep (initVoyage startingGold)

/-! ### Hull state (for the hull-bounds invariant) -/

/-- Hull fragment of the voyage state: `ship.hullPoints.value`,
`ship.hullPoints.max` and the `totalHullDamage` counter. -/
structure HullState where
  value : Int
  max : Int
  totalHullDamage : Int
deriving Repr, DecidableEq

/-- Hull-touching operations: hazard or encounter damage subtracts the rolled
amount with no clamp (simulation.js 562-580 and 620-635) and repairs restore
the hull to its maximum (simulation.js 1148). -/
inductive HullStep where
  | damage (d : Nat)
  | repair
deriving Repr, DecidableEq

/-- Applying one hull operation, exactly as the cited lines do. -/
def applyHullStep (s : HullState) : HullStep → HullState
  | .damage d => { s with value := s.value - d, totalHullDamage := s.totalHullDamage + d }
  | .repair => { s with value := s.max }

/-- Initial hull state (`initializeVoyageState`, simulation.js 278:
totalHullDamage starts at max - value). -/
def initHull (value max : Int) : HullState :=
  { value := value, max := max, totalHullDamage := max - value }

/-- Running a sequence of hull operations from the initial hull state. -/
def runHullSteps (value max : Int) (steps : List HullStep) : HullState :=
  steps.foldl applyHullStep (initHull value max)

/-! ### Weather to sailing speed -/

/-- The fields of the parsed weather record that the speed computation reads. -/
structure WeatherRecord where
  windSpeed : Nat
  precipType : String
deriving Repr, DecidableEq

/-- Precipitation types that trigger the wet-sails bonus (simulation.js 705). -/
def wetSailTypes : List String := ["drizzle", "rainstorm-light", "rainstorm-heavy", "hailstorm"]

/-- Result of the speed computation. -/
structure SpeedInfo where
  speed : Nat
  becalmed : Bool
deriving Repr, DecidableEq

/-- Shallow embedding of `VoyageSimulator.calculateSailingSpeed`
(src/scripts/voyage/simulation.js, lines 684-713; the WeatherSystem variant in
src/unnamed/part_001, lines 70-104, is identical in these fields).
The parameter `wetRand` is the sample `Math.floor(Math.random() * 6)` in 0..5
drawn by the wet-sails branch directly from the host random-number generator:
the function consults the dice facility (`Roll`) nowhere. -/
def calculateSailingSpeed (baseSpeed : Nat) (weather : WeatherRecord) (wetRand : Nat) : SpeedInfo :=
  if weather.windSpeed < 5 then { speed := 0, becalmed := true }
  else
    let windAdjusted :=
      if weather.windSpeed < 20 then
        max 1 (baseSpeed - ((20 - weather.windSpeed) / 10) * 8)
      else if weather.windSpeed ≤ 30 then baseSpeed
      else baseSpeed + ((weather.windSpeed - 30) / 10) * 16
    let withWet :=
      if weather.precipType ∈ wetSailTypes then
        windAdjusted + windAdjusted * (wetRand + 5) / 100
      else windAdjusted
    { speed := withWet, becalmed := false }

/-! ### Proficiency checks and hazard damage -/

/-- The result object returned by `ProficiencySystem.makeProficiencyCheck`
(src/unnamed/part_005, lines 428-480): its only members are success, roll,
needed, modifier and (on some paths) note. It carries no miss-margin member. -/
structure ProfCheckResult where
  success : Bool
  roll : Option Int
  needed : Option Int
  modifier : Int
  note : Option String
deriving Repr, DecidableEq

/-- Shallow embedding of `ProficiencySystem.makeProficiencyCheck`
(src/unnamed/part_005, lines 428-480). `captainScore` is
`proficiencyScores[skillKey]` (`none` for null); `d20` is the raw die, so the
Roll total is `d20` plus the effective modifier; success means total at most
the target. -/
def makeProficiencyCheck (skillKey : String) (captainScore : Option Int)
    (lieutenantHasSkill captainHasCustomsInspection lieutenantHasCustomsInspection : Bool)
    (crewQualityMod modifier d20 : Int) : ProfCheckResult :=
  match captainScore with
  | none =>
      if skillKey = "piloting" then
        let unskilledScore : Int := 10 - 4
        let total := d20 + modifier + crewQualityMod
        { success := total ≤ unskilledScore, roll := some total, needed := some unskilledScore,
          modifier := modifier + crewQualityMod, note := some "Unskilled piloting attempt" }
      else
        { success := false, roll := none, needed := none,
          modifier := modifier + crewQualityMod, note := some "Captain lacks proficiency" }
  | some score =>
      let effectiveModifier := modifier + crewQualityMod
        + (if lieutenantHasSkill ∧ skillKey ≠ "smuggling" ∧ skillKey ≠ "piloting" then 1 else 0)
        + (if skillKey = "smuggling" ∧ (captainHasCustomsInspection ∨ lieutenantHasCustomsInspection) then 1 else 0)
      let total := d20 + effectiveModifier
      { success := total ≤ score, roll := some total, needed := some score,
        modifier := effectiveModifier, note := none }

/-- Reading the `missedBy` member of a proficiency-check result, as
`simulateSailingDay` does at src/scripts/voyage/simulation.js line 563: the
record returned by `makeProficiencyCheck` has no such member, so the JavaScript
property access yields `undefined`, modelled as `none`. -/
def missedByField (_ : ProfCheckResult) : Option Int := none

/-- Shallow embedding of `NavigationSystem.calculateHazardDamage`
(src/scripts/voyage/navigation.js, lines 82-131). The four roll parameters are
the evaluated dice totals 1d3+1, 1d4+2, 1d5+3 and 1d6+4. A `none` miss margin
models the `undefined` actually passed from the orchestrator: every JavaScript
comparison with `undefined` is false, so no branch fires and the damage is 0. -/
def calculateHazardDamage (hazardType : String) (missedBy : Option Int)
    (roll1d3p1 roll1d4p2 roll1d5p3 roll1d6p4 : Int) : Int :=
  match missedBy with
  | none => 0
  | some m =>
      if hazardType = "Minor" then
        if 1 ≤ m ∧ m ≤ 4 then 1
        else if 5 ≤ m ∧ m ≤ 7 then roll1d3p1
        else if 8 ≤ m then roll1d4p2
        else 0
      else if hazardType = "Major" then
        if 1 ≤ m ∧ m ≤ 2 then 1
        else if 3 ≤ m ∧ m ≤ 4 then roll1d3p1
        else if 5 ≤ m then roll1d5p3
        else 0
      else if hazardType = "Critical" then
        if 1 ≤ m ∧ m ≤ 2 then roll1d3p1
        else if 3 ≤ m ∧ m ≤ 4 then roll1d4p2
        else if 5 ≤ m ∧ m ≤ 7 then roll1d5p3
        else if 8 ≤ m then roll1d6p4
        else 0
      else 0

/-! ### Perishability -/

/-- Distance category from the 1d6 roll inside `checkPerishability`
(src/scripts/trading/perishability.js, lines 25-34). -/
def perishCategory (d6 : Nat) : String :=
  if d6 ≤ 2 then "Short" else if d6 ≤ 5 then "Medium" else "Long"

/-- Distance threshold from the same 1d6 roll (perishability.js, lines 25-34). -/
def perishThreshold (d6 : Nat) : Nat :=
  if d6 ≤ 2 then 80 else if d6 ≤ 5 then 250 else 500

/-- Shallow embedding of `CargoPerishability.calculateExcessUnits`
(perishability.js, lines 90-109). -/
def calculateExcessUnits (category : String) (actualDistance : Nat) : Nat :=
  if category = "Short" ∧ actualDistance > 80 then
    if actualDistance > 500 then 3 else if actualDistance > 250 then 2 else 1
  else if category = "Medium" ∧ actualDistance > 250 then
    if actualDistance > 500 then 2 else 1
  else if category = "Long" ∧ actualDistance > 500 then 1
  else 0

/-- Serial spoilage of `CargoPerishability.rollSpoilage`
(perishability.js, lines 114-147); returns the total loads lost. Each excess
unit consumes one 1d100 roll; on a roll of at most 25, the ceiling of a quarter
of the remaining loads spoils. -/
def spoilSerial : Nat → Nat → List Nat → Nat
  | 0, _, _ => 0
  | _ + 1, _, [] => 0
  | n + 1, remaining, roll :: rest =>
      if roll ≤ 25 then
        let lost := (remaining + 3) / 4
        lost + spoilSerial n (remaining - lost) rest
      else spoilSerial n remaining rest

/-- Total loads lost by `CargoPerishability.checkPerishability`
(perishability.js, lines 17-85): the function rolls its own fresh 1d6 `d6`
(it does not receive the sale distance roll), derives category and threshold,
and spoils nothing when the value arriving in its `distanceTraveled` parameter
is within the threshold. In the actual call from `handleCargoSale`
(cargo-sell.js, line 154) the arguments are shifted by one, so
`distanceArg` receives the current load count. -/
def checkPerishabilityLoadsLost (d6 distanceArg currentLoadsArg : Nat) (d100s : List Nat) : Nat :=
  let category := perishCategory d6
  let threshold := perishThreshold d6
  if distanceArg ≤ threshold then 0
  else
    let excessUnits := calculateExcessUnits category distanceArg
    if excessUnits = 0 then 0
    else spoilSerial excessUnits currentLoadsArg d100s

/-! ### Sale profit distribution -/

/-- The three outputs of the speculation branch of
`CargoSelling.handleCargoSale` (src/scripts/trading/cargo-sell.js, 193-211). -/
structure SpeculationSplit where
  totalSaleValueForOwner : Int
  crewDirectTradeEarnings : Int
  newCrewEarningsFromTrade : Int
deriving Repr, DecidableEq

/-- Shallow embedding of the speculation profit distribution
(cargo-sell.js, lines 193-211): gross profit is sale minus purchase cost minus
agent fee; when positive the owner share is the floor of half the profit added
to the purchase cost and the crew receives the remainder; otherwise the owner
receives the sale minus the agent fee and the crew receives nothing. -/
def speculationDistribution (totalSaleValue actualPurchaseCost agentFee crewEarningsFromTrade : Int) :
    SpeculationSplit :=
  let cargoGrossProfit := totalSaleValue - actualPurchaseCost - agentFee
  if cargoGrossProfit > 0 then
    let ownerProfitShare := cargoGrossProfit / 2
    let crewProfitShare := cargoGrossProfit - ownerProfitShare
    { totalSaleValueForOwner := actualPurchaseCost + ownerProfitShare,
      crewDirectTradeEarnings := crewProfitShare,
      newCrewEarningsFromTrade := crewEarningsFromTrade + crewProfitShare }
  else
    { totalSaleValueForOwner := totalSaleValue - agentFee,
      crewDirectTradeEarnings := 0,
      newCrewEarningsFromTrade := crewEarningsFromTrade }

/-- Shallow embedding of `calculateTransportFee` (cargo-sell.js, lines 7-12):
tons are loads over two, segments are the ceiling of miles over 500, the fee is
tons times 40 per segment with overall minimum 100; since 40 halves evenly the
fee equals loads times 20 times segments. -/
def calculateTransportFee (loads distanceMiles : Nat) : Nat :=
  max (loads * 20 * ((distanceMiles + 499) / 500)) 100

/-- The outputs of the consignment branch of `handleCargoSale`
(cargo-sell.js, lines 212-229). -/
structure ConsignmentSplit where
  totalSaleValueToConsignor : Int
  totalSaleValueForOwner : Int
  crewDirectTradeEarnings : Int
  newCrewEarningsFromTrade : Int
deriving Repr, DecidableEq

/-- Shallow embedding of the consignment distribution (cargo-sell.js,
lines 212-229): the commission is the floor of sale times rate percent; the
crew takes the floor of 40 percent of the commission and the owner the
remainder; the consignor receives the sale minus the commission; the owner is
additionally paid the floor of half the transport fee on delivery. -/
def consignmentDistribution (totalSaleValue commissionRate currentLoads distanceTraveled : Nat)
    (crewEarningsFromTrade : Int) : ConsignmentSplit :=
  let commissionAmount := totalSaleValue * commissionRate / 100
  let crewCommissionShare := commissionAmount * 40 / 100
  let ownerCommissionShare : Int := (commissionAmount : Int) - crewCommissionShare
  let transportFee := calculateTransportFee currentLoads distanceTraveled
  let deliveryPayment := transportFee / 2
  { totalSaleValueToConsignor := (totalSaleValue : Int) - commissionAmount,
    totalSaleValueForOwner := ownerCommissionShare + deliveryPayment,
    crewDirectTradeEarnings := (crewCommissionShare : Int),
    newCrewEarningsFromTrade := crewEarningsFromTrade + crewCommissionShare }

/-! ### Automated cargo purchase -/

/-- Shallow embedding of `PortAgentSystem.calculateFee`
(src/unnamed/part_005, lines 322-324):
`Math.floor(transactionValue * feePercent / 100)`, rendered as exact integer
division. -/
def calculateFee (value percent : Nat) : Nat := value * percent / 100

/-- Result fields of an automated purchase relevant to the treasury claim. -/
structure PurchaseOutcome where
  newTreasury : Int
  loadsBought : Nat
  totalPurchaseCost : Nat
  agentFee : Nat
deriving Repr, DecidableEq

/-- Shallow embedding of the agent-aware automated branch of
`CargoPurchasing.handleCargoPurchase` (src/scripts/trading/cargo-buy.js,
lines 562-597): loads are capped by capacity and availability, re-capped by
affordability of the cargo cost, and, when an agent is used and the cost plus
fee would exceed the treasury, re-capped once more by
floor(treasury / (price * (1 + feePercent/100))), rendered exactly as
floor(100 * treasury / (price * (100 + feePercent))). -/
def autoPurchaseAgentAware (shipCapacity qtyAvailable pricePerLoad treasury : Nat)
    (useAgent : Bool) (agentFeePercent : Nat) : PurchaseOutcome :=
  let loads0 := min shipCapacity qtyAvailable
  let cost0 := pricePerLoad * loads0
  let loads1 := if cost0 > treasury then treasury / pricePerLoad else loads0
  let cost1 := pricePerLoad * loads1
  let capped :=
    if useAgent ∧ loads1 > 0 then
      let fee1 := calculateFee cost1 agentFeePercent
      if cost1 + fee1 > treasury then
        let loads2 := 100 * treasury / (pricePerLoad * (100 + agentFeePercent))
        let cost2 := pricePerLoad * loads2
        (loads2, cost2, calculateFee cost2 agentFeePercent)
      else (loads1, cost1, fee1)
    else (loads1, cost1, 0)
  if capped.1 > 0 then
    { newTreasury := (treasury : Int) - (capped.2.1 + capped.2.2),
      loadsBought := capped.1, totalPurchaseCost := capped.2.1, agentFee := capped.2.2 }
  else
    { newTreasury := treasury, loadsBought := 0, totalPurchaseCost := capped.2.1,
      agentFee := capped.2.2 }

/-- Shallow embedding of the automated branch of the earlier duplicated
`handleCargoPurchase` variant in the same file (cargo-buy.js, lines 191-218):
loads are capped by affordability of the cargo cost alone, and the agent fee is
deducted from the treasury afterwards without any re-cap. -/
def autoPurchaseFeeAfterCap (shipCapacity qtyAvailable pricePerLoad treasury : Nat)
    (usingPortAgent : Bool) (agentFeePercent : Nat) : PurchaseOutcome :=
  let loads0 := min shipCapacity qtyAvailable
  let cost0 := pricePerLoad * loads0
  let loads1 := if cost0 > treasury then treasury / pricePerLoad else loads0
  let cost1 := pricePerLoad * loads1
  let precomputedFee := calculateFee (pricePerLoad * min shipCapacity qtyAvailable) agentFeePercent
  if loads1 > 0 then
    let actualFee := if usingPortAgent ∧ precomputedFee > 0 then calculateFee cost1 agentFeePercent else 0
    { newTreasury := (treasury : Int) - cost1 - actualFee,
      loadsBought := loads1, totalPurchaseCost := cost1, agentFee := actualFee }
  else
    { newTreasury := treasury, loadsBought := 0, totalPurchaseCost := 0, agentFee := 0 }

/-! ### Voyage configuration validation -/

/-- Captain or lieutenant record of the configuration: a name and the six
ability scores. -/
structure OfficerConfig where
  name : String
  abilities : List Int
deriving Repr, DecidableEq

/-- The configuration fields that `validatevoyageConfig` inspects. -/
structure VoyageConfig where
  shipId : String
  routeId : String
  startingGold : Int
  tradeMode : String
  commissionRate : Int
  captain : Option OfficerConfig
deriving Repr, DecidableEq

/-- Validation result record. -/
structure ValidationResult where
  valid : Bool
  message : String
deriving Repr, DecidableEq

/-- Shallow embedding of `VoyageSimulator.validatevoyageConfig`
(src/scripts/voyage/simulation.js, lines 312-321), with the ship and route
registries abstracted as the lists of known ids. The function checks exactly
five conditions; it performs no ability-score check. -/
def validatevoyageConfig (knownShips knownRoutes : List String) (config : VoyageConfig) :
    ValidationResult :=
  if config.shipId ∉ knownShips then { valid := false, message := "Invalid ship ID" }
  else if config.routeId ∉ knownRoutes then { valid := false, message := "Invalid route ID" }
  else if config.startingGold < 0 then { valid := false, message := "Starting gold must be at least 0" }
  else if config.tradeMode = "consignment" ∧ (config.commissionRate < 10 ∨ config.commissionRate > 40) then
    { valid := false, message := "Commission rate must be 10-40 percent" }
  else if (config.captain.map (fun c => c.name)).getD "" = "" then
    { valid := false, message := "Captain must have a name" }
  else { valid := true, message := "" }

/-- Model of `startVoyage` (src/scripts/voyage/simulation.js, lines 68-120) at
the granularity of the claim: `initializeVoyageState` runs first and throws for
an unknown ship id (`ShipRegistry.createInstance`, ships.js 64-71) or an
unknown route id (the `RouteRegistry.get(config.routeId).ports[0]` access);
otherwise `validatevoyageConfig` gates the start, and `saveState` runs only
after a successful validation. The result is `some config` exactly when the
voyage starts and its state is persisted. -/
def startVoyagePersists (knownShips knownRoutes : List String) (config : VoyageConfig) :
    Option VoyageConfig :=
  if config.shipId ∉ knownShips then none
  else if config.routeId ∉ knownRoutes then none
  else if (validatevoyageConfig knownShips knownRoutes config).valid then some config
  else none

/-! ### Lemmas about the ledger -/

theorem lastBalance_append : ∀ (ledger : List LedgerEntry) (e : LedgerEntry),
    lastBalance (ledger ++ [e]) = e.balance
  | [], _ => rfl
  | [_], _ => rfl
  | x :: y :: ys, e => by
      have h := lastBalance_append (y :: ys) e
      simpa [lastBalance] using h

theorem lastBalanceFrom_eq_lastBalance : ∀ (xs : List LedgerEntry) (x : LedgerEntry),
    lastBalanceFrom x.balance xs = lastBalance (x :: xs)
  | [], _ => rfl
  | y :: ys, x => by
      have h := lastBalanceFrom_eq_lastBalance ys y
      simpa [lastBalanceFrom, lastBalance] using h

theorem chainFromB_append (e : LedgerEntry) : ∀ (xs : List LedgerEntry) (prev : Int),
    chainFromB prev (xs ++ [e]) =
      (chainFromB prev xs && (e.balance == lastBalanceFrom prev xs + entryIncome e - entryExpense e))
  | [], prev => by simp [chainFromB, lastBalanceFrom]
  | x :: xs, prev => by
      simp [chainFromB, lastBalanceFrom, chainFromB_append e xs x.balance, Bool.and_assoc]

theorem income_field_getD (amount : Int) (h : 0 ≤ amount) :
    ((if amount > 0 then some amount else none : Option Int).getD 0) = amount := by
  rcases lt_or_eq_of_le h with h0 | h0
  · simp [h0]
  · simp [← h0]

theorem ledgerChained_record (ledger : List LedgerEntry) (d s : String) (inc exp : Int)
    (hinc : 0 ≤ inc) (hexp : 0 ≤ exp) (hok : ledgerChained ledger = true) :
    ledgerChained (recordLedgerEntry ledger d s inc exp false) = true := by
  cases ledger with
  | nil =>
      simp [recordLedgerEntry, ledgerChained, chainFromB]
  | cons x xs =>
      show ledgerChained ((x :: xs) ++ [_]) = true
      rw [List.cons_append]
      show chainFromB x.balance (xs ++ [_]) = true
      rw [chainFromB_append, lastBalanceFrom_eq_lastBalance]
      have h1 : ledgerChained (x :: xs) = chainFromB x.balance xs := rfl
      rw [h1] at hok
      rw [hok]
      simp only [Bool.true_and, beq_iff_eq, entryIncome, entryExpense]
      rw [income_field_getD inc hinc, income_field_getD exp hexp]
      simp

theorem head_append_of_ne_nil (ledger : List LedgerEntry) (e : LedgerEntry)
    (h : ledger ≠ []) : (ledger ++ [e]).head? = ledger.head? := by
  cases ledger with
  | nil => exact absurd rfl h
  | cons x xs => rfl

theorem foldRecord_ok (rest : List LedgerOp) :
    ∀ (ledger : List LedgerEntry), ledger ≠ [] →
      ledgerChained ledger = true →
      (∀ op ∈ rest, op.setBalance = false ∧ 0 ≤ op.income ∧ 0 ≤ op.expense) →
      ledgerChained (rest.foldl recStep ledger) = true ∧
      (rest.foldl recStep ledger).head? = ledger.head? ∧
      rest.foldl recStep ledger ≠ [] := by
  induction rest with
  | nil => intro ledger hne hok _; exact ⟨hok, rfl, hne⟩
  | cons op rest ih =>
      intro ledger hne hok hops
      obtain ⟨hflag, hinc, hexp⟩ := hops op (List.mem_cons_self op rest)
      have hstep : recStep ledger op = recordLedgerEntry ledger op.date op.description op.income op.expense false := by
        rw [recStep, hflag]
      have hchain : ledgerChained (recStep ledger op) = true := by
        rw [hstep]; exact ledgerChained_record ledger op.date op.description op.income op.expense hinc hexp hok
      have hnonempty : recStep ledger op ≠ [] := by
        rw [hstep, recordLedgerEntry]
        simp
      have hhead : (recStep ledger op).head? = ledger.head? := by
        rw [hstep, recordLedgerEntry]
        exact head_append_of_ne_nil ledger _ hne
      have hops2 : ∀ o ∈ rest, o.setBalance = false ∧ 0 ≤ o.income ∧ 0 ≤ o.expense :=
        fun o ho => hops o (List.mem_cons_of_mem op ho)
      obtain ⟨c1, c2, c3⟩ := ih (recStep ledger op) hnonempty hchain hops2
      refine ⟨by simpa using c1, ?_, by simpa using c3⟩
      calc ((op :: rest).foldl recStep ledger).head?
        = (rest.foldl recStep (recStep ledger op)).head? := by rw [List.foldl_cons]
        _ = (recStep ledger op).head? := c2
        _ = ledger.head? := hhead

/-- Claim C1: for every voyage run and every ledger entry other than the
designated opening entry, the entry balance equals the previous entry balance
plus the entry income minus its expense; the opening entry sets its balance
directly to the starting treasury. A run is any sequence of
`recordLedgerEntry` calls in which only the opening call carries the
set-balance flag (as in the source, where `startVoyage` issues the single
opening call and every later call passes the default `false`) and the
non-opening amounts are non-negative, as all amounts passed by the engine are. -/
theorem ledger_chain_invariant (treasury : Int) (rest : List LedgerOp)
    (hrest : ∀ op ∈ rest, op.setBalance = false ∧ 0 ≤ op.income ∧ 0 ≤ op.expense) :
    ledgerChained (applyLedgerOps (openingOp treasury :: rest)) = true ∧
    (applyLedgerOps (openingOp treasury :: rest)).head?.map (fun e => e.balance) = some treasury := by
  have hbase : applyLedgerOps (openingOp treasury :: rest)
      = rest.foldl recStep (recStep [] (openingOp treasury)) := rfl
  have hopen : recStep [] (openingOp treasury)
      = [{ date := "start", description := "Beginning of trade simulation",
           income := if treasury > 0 then some treasury else none,
           expense := none,
           balance := treasury }] := by
    simp [recStep, openingOp, recordLedgerEntry]
  obtain ⟨c1, c2, _⟩ := foldRecord_ok rest (recStep [] (openingOp treasury))
    (by rw [hopen]; simp) (by rw [hopen]; rfl) hrest
  refine ⟨by rw [hbase]; exact c1, ?_⟩
  rw [hbase, c2, hopen]
  rfl

/-- Witness for C1 at a concrete run: opening treasury 1000 followed by a
57 gp port-fee expense and a 4400 gp sale income. -/
theorem ledger_chain_invariant_witness :
    ledgerChained (applyLedgerOps (openingOp 1000 ::
      [{ date := "d2", description := "Port fees", income := 0, expense := 57, setBalance := false },
       { date := "d3", description := "Sold cargo", income := 4400, expense := 0, setBalance := false }])) = true ∧
    (applyLedgerOps (openingOp 1000 ::
      [{ date := "d2", description := "Port fees", income := 0, expense := 57, setBalance := false },
       { date := "d3", description := "Sold cargo", income := 4400, expense := 0, setBalance := false }])).head?.map
        (fun e => e.balance) = some 1000 :=
  ledger_chain_invariant 1000
    [{ date := "d2", description := "Port fees", income := 0, expense := 57, setBalance := false },
     { date := "d3", description := "Sold cargo", income := 4400, expense := 0, setBalance := false }]
    (by decide)

/-! ### Treasury versus ledger (C2) -/

theorem lastBalance_record (ledger : List LedgerEntry) (d s : String) (inc exp : Int) :
    lastBalance (recordLedgerEntry ledger d s inc exp false) = lastBalance ledger + inc - exp := by
  simp [recordLedgerEntry, lastBalance_append]

theorem applyVoyageStep_preserves (s : VState)
    (h : s.treasury = lastBalance s.ledger - s.legAccumulatedCost) (st : VoyageStep) :
    (applyVoyageStep s st).treasury
      = lastBalance (applyVoyageStep s st).ledger - (applyVoyageStep s st).legAccumulatedCost := by
  cases st with
  | dayCost c =>
      simp only [applyVoyageStep]
      omega
  | flushLegCosts =>
      by_cases hc : s.legAccumulatedCost > 0
      · simp only [applyVoyageStep, if_pos hc, lastBalance_record]
        omega
      · simp only [applyVoyageStep, if_neg hc]
        exact h
  | portFees f =>
      simp only [applyVoyageStep, lastBalance_record]
      omega
  | shipRepair c =>
      simp only [applyVoyageStep, lastBalance_record]
      omega
  | passengerRevenue r =>
      by_cases hr : r > 0
      · simp only [applyVoyageStep, if_pos hr, lastBalance_record]
        omega
      · simp only [applyVoyageStep, if_neg hr]
        exact h
  | cargoSaleSettle owner tax =>
      by_cases ho : owner > 0 <;> by_cases ht : tax > 0 <;>
        simp only [applyVoyageStep, ho, ht, if_pos, if_neg, if_true, if_false,
          lastBalance_record, not_false_eq_true, ite_true, ite_false] <;>
        omega
  | cargoPurchase c =>
      simp only [applyVoyageStep, lastBalance_record]
      omega
  | consignmentUpfront u =>
      simp only [applyVoyageStep, lastBalance_record]
      omega

/-- Claim C2 (amended): after the opening ledger entry, at every day boundary
and port-phase boundary the treasury equals the balance of the last ledger
entry minus the operational costs accumulated since the last ledger flush
(`legAccumulatedCost`); in particular the two agree exactly at the moments
where the accumulated costs have just been flushed. The claim as stated, with
the treasury always equal to the last balance, fails at day boundaries because
the daily operational cost is deducted from the treasury without a ledger
entry. -/
theorem treasury_lags_ledger_by_accumulated_costs (startingGold : Int) (steps : List VoyageStep) :
    (runVoyageSteps startingGold steps).treasury
      = lastBalance (runVoyageSteps startingGold steps).ledger
        - (runVoyageSteps startingGold steps).legAccumulatedCost := by
  suffices hgen : ∀ (l : List VoyageStep) (s : VState),
      s.treasury = lastBalance s.ledger - s.legAccumulatedCost →
      (l.foldl applyVoyageStep s).treasury
        = lastBalance (l.foldl applyVoyageStep s).ledger
          - (l.foldl applyVoyageStep s).legAccumulatedCost by
    refine hgen steps (initVoyage startingGold) ?_
    simp [initVoyage, recordLedgerEntry, lastBalance]
  intro l
  induction l with
  | nil => intro s hs; simpa using hs
  | cons st l ih =>
      intro s hs
      rw [List.foldl_cons]
      exact ih _ (applyVoyageStep_preserves s hs st)

/-- Counterexample to claim C2 as stated: starting treasury 1000, one sailing
day with a daily operational cost of 17 gp. At this day boundary the treasury
is 983 while the last ledger balance is still the opening 1000. -/
theorem treasury_differs_from_last_balance_at_day_boundary :
    (runVoyageSteps 1000 [VoyageStep.dayCost 17]).treasury
      ≠ lastBalance (runVoyageSteps 1000 [VoyageStep.dayCost 17]).ledger := by
  decide

/-! ### Hull bounds (C7) -/

/-- Claim C7 (amended): the hull value never exceeds its maximum, and at every
moment (hence at termination) the `totalHullDamage` counter is at least
max minus value. The lower bound of the claim fails: the damage application of
`simulateSailingDay` has no clamp, so the final blow can drive the hull value
below 0 (the voyage then immediately fails). -/
theorem hull_upper_bound_and_damage_accounting (value max : Int) (steps : List HullStep)
    (h0 : 0 ≤ value) (h1 : value ≤ max) :
    (runHullSteps value max steps).value ≤ (runHullSteps value max steps).max ∧
    (runHullSteps value max steps).max - (runHullSteps value max steps).value
      ≤ (runHullSteps value max steps).totalHullDamage := by
  suffices hgen : ∀ (l : List HullStep) (s : HullState),
      s.value ≤ s.max → s.max - s.value ≤ s.totalHullDamage → 0 ≤ s.totalHullDamage →
      (l.foldl applyHullStep s).value ≤ (l.foldl applyHullStep s).max ∧
      (l.foldl applyHullStep s).max - (l.foldl applyHullStep s).value
        ≤ (l.foldl applyHullStep s).totalHullDamage ∧
      0 ≤ (l.foldl applyHullStep s).totalHullDamage by
    have hrun := hgen steps (initHull value max) (by simp [initHull]; omega)
      (by simp [initHull]) (by simp [initHull]; omega)
    exact ⟨hrun.1, hrun.2.1⟩
  intro l
  induction l with
  | nil => intro s a b c; exact ⟨a, b, c⟩
  | cons st l ih =>
      intro s a b c
      rw [List.foldl_cons]
      cases st with
      | damage d =>
          refine ih _ ?_ ?_ ?_ <;> simp only [applyHullStep] <;> omega
      | repair =>
          refine ih _ ?_ ?_ ?_ <;> simp only [applyHullStep] <;> omega

/-- Witness for the amended C7 at a concrete run: hull 5 of 10, damage 3,
a full repair, then damage 2. -/
theorem hull_upper_bound_witness :
    (runHullSteps 5 10 [HullStep.damage 3, HullStep.repair, HullStep.damage 2]).value
      ≤ (runHullSteps 5 10 [HullStep.damage 3, HullStep.repair, HullStep.damage 2]).max ∧
    (runHullSteps 5 10 [HullStep.damage 3, HullStep.repair, HullStep.damage 2]).max
      - (runHullSteps 5 10 [HullStep.damage 3, HullStep.repair, HullStep.damage 2]).value
      ≤ (runHullSteps 5 10 [HullStep.damage 3, HullStep.repair, HullStep.damage 2]).totalHullDamage :=
  hull_upper_bound_and_damage_accounting 5 10 [HullStep.damage 3, HullStep.repair, HullStep.damage 2]
    (by decide) (by decide)

/-- Counterexample to claim C7 as stated: a ship with 1 of 10 hull points that
takes a 6-point hazard blow (1d4+2 rolling 6, simulation.js line 564 applies it
with no clamp) ends at hull value -5, violating 0 at most hull.value. -/
theorem hull_value_can_go_negative :
    (runHullSteps 1 10 [HullStep.damage 6]).value < 0 := by decide

/-! ### Weather to speed determinism (C8) -/

/-- Claim C8 (amended): the sailing-speed computation is a deterministic
function of the weather record and the base speed whenever the precipitation
type is not in the wet-sails set; in the wet-sails case the result additionally
depends on a sample drawn directly from the host random-number generator
(`Math.random`), which is outside the dice facility. -/
theorem sailing_speed_deterministic_without_wet_sails (baseSpeed : Nat) (w : WeatherRecord)
    (u1 u2 : Nat) (h : w.precipType ∉ wetSailTypes) :
    calculateSailingSpeed baseSpeed w u1 = calculateSailingSpeed baseSpeed w u2 := by
  unfold calculateSailingSpeed
  simp [h]

/-- Witness for the amended C8: wind 25 mph and no precipitation give the same
speed for two different host random samples. -/
theorem sailing_speed_deterministic_witness :
    calculateSailingSpeed 120 { windSpeed := 25, precipType := "none" } 0
      = calculateSailingSpeed 120 { windSpeed := 25, precipType := "none" } 5 :=
  sailing_speed_deterministic_without_wet_sails 120 { windSpeed := 25, precipType := "none" } 0 5
    (by decide)

/-- Counterexample to claim C8 as stated: same weather record (wind 25 mph,
drizzle), same base speed 120, and the dice facility is never consulted by the
function, yet two runs differing only in the host `Math.random` sample give
sailing speeds 126 and 132. -/
theorem sailing_speed_depends_on_host_random :
    calculateSailingSpeed 120 { windSpeed := 25, precipType := "drizzle" } 0
      ≠ calculateSailingSpeed 120 { windSpeed := 25, precipType := "drizzle" } 5 := by
  decide

/-! ### Speculation profit split (C3) -/

/-- Claim C3: in a speculation-mode sale with gross profit equal to sale minus
purchase minus agent fee, a positive profit gives the owner the purchase cost
plus the floor of half the profit while the crew receives the remainder of the
profit, added to the crew trade earnings (so owner plus crew together receive
sale minus agent fee); a zero or negative profit gives the owner sale minus
agent fee and the crew nothing. -/
theorem speculation_split_correct (sale purchase fee earn : Int) :
    (0 < sale - purchase - fee →
      (speculationDistribution sale purchase fee earn).totalSaleValueForOwner
          = purchase + (sale - purchase - fee) / 2 ∧
      (speculationDistribution sale purchase fee earn).crewDirectTradeEarnings
          = (sale - purchase - fee) - (sale - purchase - fee) / 2 ∧
      (speculationDistribution sale purchase fee earn).newCrewEarningsFromTrade
          = earn + ((sale - purchase - fee) - (sale - purchase - fee) / 2) ∧
      (speculationDistribution sale purchase fee earn).totalSaleValueForOwner
          + (speculationDistribution sale purchase fee earn).crewDirectTradeEarnings
          = sale - fee) ∧
    (sale - purchase - fee ≤ 0 →
      (speculationDistribution sale purchase fee earn).totalSaleValueForOwner = sale - fee ∧
      (speculationDistribution sale purchase fee earn).crewDirectTradeEarnings = 0 ∧
      (speculationDistribution sale purchase fee earn).newCrewEarningsFromTrade = earn) := by
  constructor
  · intro h
    have hd : speculationDistribution sale purchase fee earn =
        { totalSaleValueForOwner := purchase + (sale - purchase - fee) / 2,
          crewDirectTradeEarnings := (sale - purchase - fee) - (sale - purchase - fee) / 2,
          newCrewEarningsFromTrade := earn + ((sale - purchase - fee) - (sale - purchase - fee) / 2) } := by
      simp [speculationDistribution, h]
    rw [hd]
    refine ⟨rfl, rfl, rfl, ?_⟩
    dsimp only
    generalize (sale - purchase - fee) / 2 = q
    omega
  · intro h
    have hneg : ¬ (sale - purchase - fee > 0) := by omega
    have hd : speculationDistribution sale purchase fee earn =
        { totalSaleValueForOwner := sale - fee,
          crewDirectTradeEarnings := 0,
          newCrewEarningsFromTrade := earn } := by
      simp [speculationDistribution, hneg]
    rw [hd]
    exact ⟨rfl, rfl, rfl⟩

/-- Witness for C3 at the spec roundtrip numbers: sale 4400, purchase 2800,
no agent fee: profit 1600, owner 3600, crew 800. -/
theorem speculation_split_witness :
    (speculationDistribution 4400 2800 0 0).totalSaleValueForOwner
        = 2800 + (4400 - 2800 - 0) / 2 ∧
    (speculationDistribution 4400 2800 0 0).crewDirectTradeEarnings
        = (4400 - 2800 - 0) - (4400 - 2800 - 0) / 2 :=
  ⟨((speculation_split_correct 4400 2800 0 0).1 (by decide)).1,
   ((speculation_split_correct 4400 2800 0 0).1 (by decide)).2.1⟩

/-! ### Consignment distribution (C4) -/

/-- Counterexample to claim C4 as stated: sale 1000 gp at commission rate 20
gives commission 200 gp, but the crew receives only floor(200 times 0.40) = 80 gp
(cargo-sell.js lines 213-215), not the full commission the claim asserts. -/
theorem consignment_crew_share_not_full_commission :
    (consignmentDistribution 1000 20 20 600 0).crewDirectTradeEarnings
      ≠ ((1000 * 20 / 100 : Nat) : Int) := by decide

/-- Claim C4 (amended): in a consignment sale the commission is the floor of
sale times rate percent and is split, the crew taking the floor of 40 percent
of it (added to the crew trade earnings) and the owner the remainder; the
consignor receives the sale minus the commission; and the owner is additionally
paid the floor of half the transport fee max(100, loads times 20 times the
ceiling of miles over 500) on delivery. The crew share never exceeds the
commission. -/
theorem consignment_split_correct (sale rate loads dist : Nat) (earn : Int) :
    (consignmentDistribution sale rate loads dist earn).crewDirectTradeEarnings
        = ((sale * rate / 100) * 40 / 100 : Nat) ∧
    (consignmentDistribution sale rate loads dist earn).totalSaleValueToConsignor
        = (sale : Int) - ((sale * rate / 100 : Nat) : Int) ∧
    (consignmentDistribution sale rate loads dist earn).totalSaleValueForOwner
        = ((sale * rate / 100 : Nat) : Int) - ((sale * rate / 100) * 40 / 100 : Nat)
          + ((calculateTransportFee loads dist / 2 : Nat) : Int) ∧
    (consignmentDistribution sale rate loads dist earn).newCrewEarningsFromTrade
        = earn + ((sale * rate / 100) * 40 / 100 : Nat) ∧
    ((sale * rate / 100) * 40 / 100 : Nat) ≤ (sale * rate / 100 : Nat) := by
  refine ⟨rfl, rfl, rfl, rfl, ?_⟩
  calc sale * rate / 100 * 40 / 100
      ≤ sale * rate / 100 * 100 / 100 :=
        Nat.div_le_div_right (Nat.mul_le_mul_left _ (by norm_num))
    _ = sale * rate / 100 := Nat.mul_div_cancel _ (by norm_num)

/-! ### Perishability bug (C5) -/

/-- Claim C5 identifies a code bug. The comment above the call
(cargo-sell.js line 149) and the spec both say the perishability check reuses
the 1d6 distance roll of the sale-price calculation; instead `checkPerishability`
rolls a fresh 1d6, and the call
`applyPerishability(saleResult.distanceRollInfo, currentLoads, voyageLogHtmlRef, portName)`
(cargo-sell.js line 154) passes four arguments to the five-parameter function
`applyPerishability(cargoType, distanceTraveled, currentLoads, logRef, portName)`
(perishability.js line 173), so the distance compared against the threshold is
the current load count. First conjunct: at the failing input (20 loads), for
every fresh 1d6 outcome and any spoilage rolls the code loses 0 loads, because
20 is within every threshold. Second conjunct: the same routine, given the
reused sale roll 1 (Short, threshold 80) and the true distance 600 as the claim
prescribes, loses 9 of the 20 loads under spoilage rolls 12, 80, 18. -/
theorem perishability_sale_path_never_spoils :
    (∀ (freshD6 : Fin 6) (loadsArg : Nat) (d100s : List Nat),
        checkPerishabilityLoadsLost (freshD6.val + 1) 20 loadsArg d100s = 0) ∧
    checkPerishabilityLoadsLost 1 600 20 [12, 80, 18] = 9 := by
  constructor
  · intro d6 loadsArg d100s
    fin_cases d6 <;> rfl
  · rfl

/-! ### Missing miss margin (C6) -/

/-- Claim C6 identifies a code bug. The result record of
`makeProficiencyCheck` exposes no miss-margin member, so the orchestrator
access `pilotCheck.missedBy` (simulation.js line 563) yields undefined rather
than the defined non-negative integer the claim describes. At the concrete
failed piloting check with target 13 and d20 roll 20: the check fails; the
miss-margin read is `none`; `calculateHazardDamage` fed that value returns 0
for every dice outcome; whereas fed the miss margin max(0, roll - needed) = 7
the Major table prescribes the 1d5+3 roll. -/
theorem piloting_check_lacks_miss_margin :
    (makeProficiencyCheck "piloting" (some 13) false false false 0 0 20).success = false ∧
    missedByField (makeProficiencyCheck "piloting" (some 13) false false false 0 0 20) = none ∧
    (∀ a b c d : Int,
        calculateHazardDamage "Major"
          (missedByField (makeProficiencyCheck "piloting" (some 13) false false false 0 0 20))
          a b c d = 0) ∧
    (∀ a b c d : Int, calculateHazardDamage "Major" (some (max 0 (20 - 13))) a b c d = c) := by
  refine ⟨by decide, rfl, fun a b c d => rfl, fun a b c d => ?_⟩
  rw [show (max 0 (20 - 13) : Int) = 7 by norm_num]
  simp only [calculateHazardDamage]
  rw [if_neg (by decide : ¬ ("Major" : String) = "Minor")]
  norm_num

/-! ### Configuration validation (C9) -/

theorem validate_valid_iff (ships routes : List String) (c : VoyageConfig) :
    (validatevoyageConfig ships routes c).valid = true ↔
      c.shipId ∈ ships ∧ c.routeId ∈ routes ∧ ¬ c.startingGold < 0 ∧
      ¬ (c.tradeMode = "consignment" ∧ (c.commissionRate < 10 ∨ c.commissionRate > 40)) ∧
      ¬ (c.captain.map (fun o => o.name)).getD "" = "" := by
  unfold validatevoyageConfig
  split_ifs with h1 h2 h3 h4 h5 <;> simp_all

/-- Claim C9 (amended): `startVoyage` rejects, with no voyage started and no
state persisted, every configuration with an unknown ship id, an unknown route
id, negative starting gold, a commission rate outside 10 to 40 in consignment
mode, or a captain missing a name — the five conditions `validatevoyageConfig`
actually checks. The ability-score range of the claim is not among them: that
check lives only in the separate form validation of the start dialog, so a
configuration whose officer carries an ability score outside 3 to 18 is
accepted by `startVoyage` (see the counterexample). -/
theorem start_voyage_rejects_checked_invalid_configs (ships routes : List String) (c : VoyageConfig)
    (h : c.shipId ∉ ships ∨ c.routeId ∉ routes ∨ c.startingGold < 0
         ∨ (c.tradeMode = "consignment" ∧ (c.commissionRate < 10 ∨ c.commissionRate > 40))
         ∨ (c.captain.map (fun o => o.name)).getD "" = "") :
    startVoyagePersists ships routes c = none := by
  unfold startVoyagePersists
  split_ifs with h1 h2 h3
  all_goals try rfl
  exfalso
  rw [validate_valid_iff] at h3
  obtain ⟨m1, m2, m3, m4, m5⟩ := h3
  rcases h with h | h | h | h | h
  · exact h m1
  · exact h m2
  · exact m3 h
  · exact m4 h
  · exact m5 h

/-- Witness for the amended C9: a configuration with negative starting gold is
rejected and nothing is persisted. -/
theorem start_voyage_rejects_witness :
    startVoyagePersists ["cog"] ["coastalRun"]
      { shipId := "cog", routeId := "coastalRun", startingGold := -5,
        tradeMode := "speculation", commissionRate := 0,
        captain := some { name := "Anne", abilities := [12, 10, 10, 10, 10, 10] } } = none :=
  start_voyage_rejects_checked_invalid_configs ["cog"] ["coastalRun"]
    { shipId := "cog", routeId := "coastalRun", startingGold := -5,
      tradeMode := "speculation", commissionRate := 0,
      captain := some { name := "Anne", abilities := [12, 10, 10, 10, 10, 10] } }
    (by decide)

/-- Counterexample to claim C9 as stated: a configuration that is valid in
every checked respect but whose captain has an ability score of 25, outside
3 to 18, is accepted: the voyage starts and its state is persisted. -/
theorem start_voyage_accepts_out_of_range_ability :
    (startVoyagePersists ["cog"] ["coastalRun"]
      { shipId := "cog", routeId := "coastalRun", startingGold := 1000,
        tradeMode := "speculation", commissionRate := 0,
        captain := some { name := "Anne", abilities := [25, 10, 10, 10, 10, 10] } }).isSome = true ∧
    ¬ (∀ a ∈ [(25 : Int), 10, 10, 10, 10, 10], 3 ≤ a ∧ a ≤ 18) := by
  decide

/-! ### Automated purchase affordability (C10) -/

theorem fee_mul_le (x f : Nat) : calculateFee x f * 100 ≤ x * f := by
  unfold calculateFee
  exact Nat.div_mul_le_self (x * f) 100

theorem recap_cost_fee_le (price T f : Nat) :
    price * (100 * T / (price * (100 + f)))
      + calculateFee (price * (100 * T / (price * (100 + f)))) f ≤ T := by
  set L := 100 * T / (price * (100 + f)) with hL
  have h1 : L * (price * (100 + f)) ≤ 100 * T := by
    rw [hL]; exact Nat.div_mul_le_self _ _
  have h2 : calculateFee (price * L) f * 100 ≤ price * L * f := fee_mul_le _ _
  have key : (price * L + calculateFee (price * L) f) * 100 ≤ T * 100 := by
    have h3 : price * L * 100 + price * L * f ≤ 100 * T := by
      calc price * L * 100 + price * L * f = L * (price * (100 + f)) := by ring
        _ ≤ 100 * T := h1
    calc (price * L + calculateFee (price * L) f) * 100
        = price * L * 100 + calculateFee (price * L) f * 100 := by ring
      _ ≤ price * L * 100 + price * L * f := by omega
      _ ≤ 100 * T := h3
      _ = T * 100 := by ring
  exact Nat.le_of_mul_le_mul_right key (by norm_num)

/-- Claim C10 (amended): in the agent-aware automated purchase branch
(cargo-buy.js 562-597) the loads bought are reduced so that the cargo cost plus
the agent fee never exceeds the available treasury, and the returned treasury
is never negative; the duplicated earlier variant (cargo-buy.js 191-218)
guarantees this only when no agent is used, since there the agent fee is
deducted after a cap that considered the cargo cost alone (see the
counterexample). The hypothesis that the price per load is at least 1 holds at
every call site, where the price is computed with Math.max(1, ...). -/
theorem purchase_respects_treasury (cap qty price T f : Nat) (ua : Bool) (hp : 1 ≤ price) :
    (autoPurchaseAgentAware cap qty price T ua f).totalPurchaseCost
        + (autoPurchaseAgentAware cap qty price T ua f).agentFee ≤ T ∧
    0 ≤ (autoPurchaseAgentAware cap qty price T ua f).newTreasury ∧
    0 ≤ (autoPurchaseFeeAfterCap cap qty price T false f).newTreasury := by
  have hdiv : price * (T / price) ≤ T := by
    rw [mul_comm]; exact Nat.div_mul_le_self T price
  have hrecap := recap_cost_fee_le price T f
  refine ⟨?_, ?_, ?_⟩
  · simp only [autoPurchaseAgentAware]
    split_ifs
    all_goals dsimp only
    all_goals omega
  · simp only [autoPurchaseAgentAware]
    split_ifs
    all_goals dsimp only
    all_goals omega
  · simp only [autoPurchaseFeeAfterCap]
    split_ifs
    all_goals dsimp only
    all_goals try omega
    all_goals simp_all only [Bool.false_eq_true, false_and]

/-- Witness for the amended C10: capacity 10, 10 loads offered at 10 gp with a
100 gp treasury and a 7 percent agent: the agent-aware branch re-caps to 9
loads (90 gp cargo plus 6 gp fee, within the treasury). -/
theorem purchase_respects_treasury_witness :
    (autoPurchaseAgentAware 10 10 10 100 true 7).totalPurchaseCost
        + (autoPurchaseAgentAware 10 10 10 100 true 7).agentFee ≤ 100 ∧
    0 ≤ (autoPurchaseAgentAware 10 10 10 100 true 7).newTreasury ∧
    0 ≤ (autoPurchaseFeeAfterCap 10 10 10 100 false 7).newTreasury :=
  purchase_respects_treasury 10 10 10 100 7 true (by decide)

/-- Counterexample to claim C10 as stated: in the duplicated earlier variant
(cargo-buy.js 191-218), capacity 10, 10 loads at 10 gp, treasury 100 and a
7 percent agent yield a 100 gp purchase plus a 7 gp agent fee deducted
afterwards, returning newTreasury = -7, which is negative. -/
theorem purchase_overdraws_with_agent_fee :
    (autoPurchaseFeeAfterCap 10 10 10 100 true 7).newTreasury < 0 := by decide
